import Mathlib

/-!
Shallow embedding of the gif-to-spritesheet core (`src/lib/gif-processor.ts`):
the frame model adapter `extractFrames` and the layout/compositing engine
`generateSpritesheet`.  Pixel rendering and PNG encoding are platform calls;
the geometry (grid resolution, canvas sizing, placement emission) is embedded
exactly as the source computes it, over `Nat`.
-/

/-- `LayoutMode` from the source: `'horizontal' | 'vertical' | 'grid'`. -/
inductive LayoutMode where
  | horizontal
  | vertical
  | grid
deriving DecidableEq, Repr

/-- `ProcessingConfig` from the source.  `columns?: number` is optional, hence
`Option Nat`; the source reads it as `config.columns || ...`, so an explicit
`0` is falsy and behaves like absent. -/
structure ProcessingConfig where
  layout : LayoutMode
  padding : Nat
  columns : Option Nat
deriving DecidableEq, Repr

/-- The `dims` record carried by each frame (`{width, height, top, left}`). -/
structure FrameDims where
  width : Nat
  height : Nat
  top : Nat
  left : Nat
deriving DecidableEq, Repr

/-- `SpriteFrame` from the source.  `imageData` is the RGBA byte buffer the
source wraps in an `ImageData`; the bytes themselves are carried unchanged. -/
structure SpriteFrame where
  id : Nat
  imageData : List Nat
  dims : FrameDims
  delay : Nat
deriving DecidableEq, Repr

instance : Inhabited SpriteFrame :=
  ⟨{ id := 0, imageData := [], dims := { width := 0, height := 0, top := 0, left := 0 },
     delay := 0 }⟩

/-- One entry of `SpriteSheetResult.frames` (`{x, y, w, h, duration}`). -/
structure Placement where
  x : Nat
  y : Nat
  w : Nat
  h : Nat
  duration : Nat
deriving DecidableEq, Repr

/-- `SpriteSheetResult` from the source, minus the raster `blob`/`url`
(opaque platform handles): canvas size and the frame atlas. -/
structure SpriteSheetResult where
  width : Nat
  height : Nat
  frames : List Placement
deriving DecidableEq, Repr

/-- The decoded-frame shape `gifuct-js` hands to `extractFrames`:
`frame.patch` plus `frame.dims` plus `frame.delay`. -/
structure DecodedFrame where
  patch : List Nat
  dims : FrameDims
  delay : Nat
deriving DecidableEq, Repr

/-- The adapter part of `extractFrames`: the `frames.map((frame, index) => ...)`
that turns decoder output into canonical `SpriteFrame`s.  (The preceding
`parseGIF`/`decompressFrames` calls are the external decoder collaborator.) -/
def extractFrames (frames : List DecodedFrame) : List SpriteFrame :=
  (frames.enum).map (fun p =>
    { id := p.1
      imageData := p.2.patch
      dims := { width := p.2.dims.width, height := p.2.dims.height,
                top := p.2.dims.top, left := p.2.dims.left }
      delay := p.2.delay })

/-- `Math.ceil(Math.sqrt(n))` on naturals. -/
def ceilSqrt (n : Nat) : Nat :=
  if Nat.sqrt n * Nat.sqrt n = n then Nat.sqrt n else Nat.sqrt n + 1

/-- The grid-shape resolution block of `generateSpritesheet` (the
`if (layout === ...)` chain): returns `(cols, rows)`.  `config.columns || d`
is JS truthiness: `some 0` falls through to the default. -/
def resolveGrid (layout : LayoutMode) (columns : Option Nat) (count : Nat) :
    Nat × Nat :=
  match layout with
  | .horizontal => (count, 1)
  | .vertical => (1, count)
  | .grid =>
    let preferredCols :=
      match columns with
      | some c => if c = 0 then ceilSqrt count else c
      | none => ceilSqrt count
    (preferredCols, (count + preferredCols - 1) / preferredCols)

/-- `generateSpritesheet` from the source: rejects empty input, resolves the
grid shape, sizes cells to the max frame width/height, sizes the canvas with
padding between cells only, and emits one `{x, y, w, h, duration}` placement
per frame at `col = i % cols`, `row = i / cols`.  The raster draw
(`putImageData`) and PNG encode are platform effects outside the geometry;
`ceil(count / cols)` on naturals is `(count + cols - 1) / cols`. -/
def generateSpritesheet (frames : List SpriteFrame) (config : ProcessingConfig) :
    Except String SpriteSheetResult :=
  if frames.length = 0 then
    Except.error "No frames to process"
  else
    let count := frames.length
    let shape := resolveGrid config.layout config.columns count
    let cols := shape.1
    let rows := shape.2
    let maxWidth := (frames.map (fun f => f.dims.width)).foldl max 0
    let maxHeight := (frames.map (fun f => f.dims.height)).foldl max 0
    let totalWidth := cols * maxWidth + (cols - 1) * config.padding
    let totalHeight := rows * maxHeight + (rows - 1) * config.padding
    let spriteData := (List.range count).map (fun i =>
      let col := i % cols
      let row := i / cols
      let x := col * (maxWidth + config.padding)
      let y := row * (maxHeight + config.padding)
      let frame := frames.getD i default
      { x := x, y := y, w := frame.dims.width, h := frame.dims.height,
        duration := frame.delay })
    Except.ok { width := totalWidth, height := totalHeight, frames := spriteData }

/-- Cell width: `Math.max(...frames.map(f => f.dims.width))` (nonneg fold). -/
def cellWidth (frames : List SpriteFrame) : Nat :=
  (frames.map (fun f => f.dims.width)).foldl max 0

/-- Cell height: `Math.max(...frames.map(f => f.dims.height))`. -/
def cellHeight (frames : List SpriteFrame) : Nat :=
  (frames.map (fun f => f.dims.height)).foldl max 0

instance : Inhabited Placement :=
  ⟨{ x := 0, y := 0, w := 0, h := 0, duration := 0 }⟩

instance : Inhabited DecodedFrame :=
  ⟨{ patch := [], dims := { width := 0, height := 0, top := 0, left := 0 },
     delay := 0 }⟩

/-- A frame-building convenience for concrete test inputs. -/
def mkFrame (w h d : Nat) : SpriteFrame :=
  { id := 0, imageData := [], dims := { width := w, height := h, top := 0, left := 0 },
    delay := d }

lemma le_foldl_max (l : List Nat) (a : Nat) : a ≤ l.foldl max a := by
  induction l generalizing a with
  | nil => exact Nat.le_refl a
  | cons x xs ih => exact Nat.le_trans (Nat.le_max_left a x) (ih (max a x))

lemma mem_le_foldl_max (l : List Nat) (a b : Nat) (hb : b ∈ l) : b ≤ l.foldl max a := by
  induction l generalizing a with
  | nil => cases hb
  | cons x xs ih =>
    cases hb with
    | head => exact Nat.le_trans (Nat.le_max_right a b) (le_foldl_max xs (max a b))
    | tail _ h => exact ih (max a x) h

lemma foldl_max_mem (l : List Nat) (a : Nat) :
    l.foldl max a = a ∨ l.foldl max a ∈ l := by
  induction l generalizing a with
  | nil => exact Or.inl rfl
  | cons x xs ih =>
    rcases ih (max a x) with h | h
    · rcases max_choice a x with hm | hm
      · exact Or.inl (by rw [List.foldl_cons, h, hm])
      · exact Or.inr (by rw [List.foldl_cons, h, hm]; exact List.mem_cons_self x xs)
    · exact Or.inr (List.mem_cons_of_mem x h)

lemma width_le_cellWidth (frames : List SpriteFrame) (f : SpriteFrame)
    (hf : f ∈ frames) : f.dims.width ≤ cellWidth frames :=
  mem_le_foldl_max _ 0 _ (List.mem_map_of_mem (fun g => g.dims.width) hf)

lemma height_le_cellHeight (frames : List SpriteFrame) (f : SpriteFrame)
    (hf : f ∈ frames) : f.dims.height ≤ cellHeight frames :=
  mem_le_foldl_max _ 0 _ (List.mem_map_of_mem (fun g => g.dims.height) hf)

lemma cellWidth_attained (frames : List SpriteFrame) (h : frames ≠ []) :
    ∃ f ∈ frames, cellWidth frames = f.dims.width := by
  rcases foldl_max_mem (frames.map (fun g => g.dims.width)) 0 with h0 | hm
  · obtain ⟨f, hf⟩ := List.exists_mem_of_ne_nil frames h
    refine ⟨f, hf, ?_⟩
    have hle := width_le_cellWidth frames f hf
    unfold cellWidth at hle ⊢
    omega
  · obtain ⟨f, hf, hfw⟩ := List.mem_map.mp hm
    exact ⟨f, hf, (by unfold cellWidth; omega)⟩

lemma cellHeight_attained (frames : List SpriteFrame) (h : frames ≠ []) :
    ∃ f ∈ frames, cellHeight frames = f.dims.height := by
  rcases foldl_max_mem (frames.map (fun g => g.dims.height)) 0 with h0 | hm
  · obtain ⟨f, hf⟩ := List.exists_mem_of_ne_nil frames h
    refine ⟨f, hf, ?_⟩
    have hle := height_le_cellHeight frames f hf
    unfold cellHeight at hle ⊢
    omega
  · obtain ⟨f, hf, hfw⟩ := List.mem_map.mp hm
    exact ⟨f, hf, (by unfold cellHeight; omega)⟩

lemma ceilSqrt_pos (n : Nat) (hn : 1 ≤ n) : 1 ≤ ceilSqrt n := by
  unfold ceilSqrt
  split
  · have : 0 < Nat.sqrt n := Nat.sqrt_pos.mpr hn
    omega
  · omega

lemma resolveGrid_cols_pos (mode : LayoutMode) (columns : Option Nat) (count : Nat)
    (hc : 1 ≤ count) : 1 ≤ (resolveGrid mode columns count).1 := by
  cases mode with
  | horizontal => exact hc
  | vertical => exact Nat.le_refl 1
  | grid =>
    cases columns with
    | none => exact ceilSqrt_pos count hc
    | some c =>
      by_cases h0 : c = 0
      · simp [resolveGrid, h0]
        exact ceilSqrt_pos count hc
      · simp [resolveGrid, h0]
        omega

lemma ceil_div_row_lt (a b i : Nat) (hb : 1 ≤ b) (ha : 1 ≤ a) (hi : i < a) :
    i / b < (a + b - 1) / b := by
  have h1 : a + b - 1 = (a - 1) + b := by omega
  rw [h1, Nat.add_div_right _ (by omega)]
  exact Nat.lt_succ_of_le (Nat.div_le_div_right (by omega))

lemma resolveGrid_row_lt (mode : LayoutMode) (columns : Option Nat) (count i : Nat)
    (hc : 1 ≤ count) (hi : i < count) :
    i / (resolveGrid mode columns count).1 < (resolveGrid mode columns count).2 := by
  cases mode with
  | horizontal =>
    simpa [resolveGrid] using Nat.div_lt_one_iff (by omega) |>.mpr hi
  | vertical =>
    simpa [resolveGrid] using hi
  | grid =>
    have hcols : 1 ≤ (resolveGrid LayoutMode.grid columns count).1 :=
      resolveGrid_cols_pos LayoutMode.grid columns count hc
    exact ceil_div_row_lt count _ i hcols hc hi

lemma cell_fits (k n w pad : Nat) (hk : k < n) :
    k * (w + pad) + w ≤ n * w + (n - 1) * pad := by
  obtain ⟨m, rfl⟩ : ∃ m, n = m + 1 := ⟨n - 1, by omega⟩
  have hk1 : k ≤ m := by omega
  calc k * (w + pad) + w ≤ m * (w + pad) + w := by
        exact Nat.add_le_add_right (Nat.mul_le_mul_right _ hk1) w
    _ = (m + 1) * w + (m + 1 - 1) * pad := by
        rw [Nat.add_sub_cancel]; ring

/-- The cell origin of slot `i` on the x axis, as the engine computes it. -/
def cellX (frames : List SpriteFrame) (config : ProcessingConfig) (i : Nat) : Nat :=
  (i % (resolveGrid config.layout config.columns frames.length).1) *
    (cellWidth frames + config.padding)

/-- The cell origin of slot `i` on the y axis, as the engine computes it. -/
def cellY (frames : List SpriteFrame) (config : ProcessingConfig) (i : Nat) : Nat :=
  (i / (resolveGrid config.layout config.columns frames.length).1) *
    (cellHeight frames + config.padding)

lemma generateSpritesheet_eq (frames : List SpriteFrame) (config : ProcessingConfig)
    (h : frames ≠ []) :
    generateSpritesheet frames config = Except.ok
      { width := (resolveGrid config.layout config.columns frames.length).1 *
                   cellWidth frames +
                 ((resolveGrid config.layout config.columns frames.length).1 - 1) *
                   config.padding,
        height := (resolveGrid config.layout config.columns frames.length).2 *
                    cellHeight frames +
                  ((resolveGrid config.layout config.columns frames.length).2 - 1) *
                    config.padding,
        frames := (List.range frames.length).map (fun i =>
          { x := cellX frames config i, y := cellY frames config i,
            w := (frames.getD i default).dims.width,
            h := (frames.getD i default).dims.height,
            duration := (frames.getD i default).delay }) } := by
  unfold generateSpritesheet
  rw [if_neg (by simpa using h)]
  rfl

lemma getD_range_map (n : Nat) (f : Nat → Placement) (i : Nat) (hi : i < n) :
    ((List.range n).map f).getD i default = f i := by
  rw [List.getD_eq_getElem _ _ (by simpa using hi)]
  simp

/-- Spec example 2: four frames of sizes 8×8, 10×6, 6×10, 10×10. -/
def ex2Frames : List SpriteFrame :=
  [mkFrame 8 8 1, mkFrame 10 6 2, mkFrame 6 10 3, mkFrame 10 10 4]

/-- Spec example 2 config: grid, two columns, padding 2. -/
def ex2Config : ProcessingConfig :=
  { layout := LayoutMode.grid, padding := 2, columns := some 2 }

/-- Spec example 2 expected result. -/
def ex2Result : SpriteSheetResult :=
  { width := 22, height := 22,
    frames := [{ x := 0, y := 0, w := 8, h := 8, duration := 1 },
               { x := 12, y := 0, w := 10, h := 6, duration := 2 },
               { x := 0, y := 12, w := 6, h := 10, duration := 3 },
               { x := 12, y := 12, w := 10, h := 10, duration := 4 }] }

/-- C1: for every non-empty frame sequence the canvas dimensions are
`width = cols*cellWidth + (cols-1)*padding` and
`height = rows*cellHeight + (rows-1)*padding`, where `cellWidth`/`cellHeight`
are the maximum frame width/height over all input frames (upper bound and
attained); padding appears only between cells, so with `cols = 1` or
`rows = 1` the corresponding term vanishes (`Nat` subtraction makes
`(1-1)*padding = 0`). -/
theorem spritesheet_canvas_dims (frames : List SpriteFrame) (config : ProcessingConfig)
    (h : frames ≠ []) (r : SpriteSheetResult)
    (hr : generateSpritesheet frames config = Except.ok r) :
    r.width = (resolveGrid config.layout config.columns frames.length).1 * cellWidth frames
        + ((resolveGrid config.layout config.columns frames.length).1 - 1) * config.padding
    ∧ r.height = (resolveGrid config.layout config.columns frames.length).2 * cellHeight frames
        + ((resolveGrid config.layout config.columns frames.length).2 - 1) * config.padding
    ∧ (∀ f ∈ frames, f.dims.width ≤ cellWidth frames ∧ f.dims.height ≤ cellHeight frames)
    ∧ (∃ f ∈ frames, cellWidth frames = f.dims.width)
    ∧ (∃ f ∈ frames, cellHeight frames = f.dims.height) := by
  rw [generateSpritesheet_eq frames config h] at hr
  simp only [Except.ok.injEq] at hr
  subst hr
  exact ⟨rfl, rfl,
    fun f hf => ⟨width_le_cellWidth frames f hf, height_le_cellHeight frames f hf⟩,
    cellWidth_attained frames h, cellHeight_attained frames h⟩

/-- C1 witness: example 2 from the spec evaluates to a 22×22 canvas. -/
theorem spritesheet_canvas_dims_witness :
    ex2Frames ≠ [] ∧ generateSpritesheet ex2Frames ex2Config = Except.ok ex2Result
    ∧ ex2Result.width = 22 ∧ ex2Result.height = 22 := by
  have h := spritesheet_canvas_dims ex2Frames ex2Config (by decide) ex2Result rfl
  exact ⟨by decide, rfl, h.1.trans (by decide), h.2.1.trans (by decide)⟩

/-- C2: the engine emits exactly one placement per input frame in input order,
and the placement at position `i` is `{x := cellX i, y := cellY i,
w := frames[i].width, h := frames[i].height, duration := frames[i].delay}`:
the rectangle carries the frame's intrinsic size, not the cell size. -/
theorem placements_one_per_frame (frames : List SpriteFrame) (config : ProcessingConfig)
    (h : frames ≠ []) (r : SpriteSheetResult)
    (hr : generateSpritesheet frames config = Except.ok r) :
    r.frames.length = frames.length
    ∧ ∀ i, i < frames.length →
        r.frames.getD i default =
          { x := cellX frames config i, y := cellY frames config i,
            w := (frames.getD i default).dims.width,
            h := (frames.getD i default).dims.height,
            duration := (frames.getD i default).delay } := by
  rw [generateSpritesheet_eq frames config h] at hr
  simp only [Except.ok.injEq] at hr
  subst hr
  exact ⟨by simp, fun i hi => getD_range_map _ _ i hi⟩

/-- C2 witness: in example 2, frame 1 (10×6) is placed at its cell origin
(12, 0) with its intrinsic 10×6 extent and its own duration. -/
theorem placements_one_per_frame_witness :
    ex2Frames ≠ [] ∧ ex2Result.frames.length = ex2Frames.length
    ∧ ex2Result.frames.getD 1 default =
        { x := 12, y := 0, w := 10, h := 6, duration := 2 } := by
  have h := placements_one_per_frame ex2Frames ex2Config (by decide) ex2Result rfl
  exact ⟨by decide, h.1, (h.2 1 (by decide)).trans (by decide)⟩

lemma ceil_div_eq_succ (count c : Nat) (hcount : 1 ≤ count) (hc : 1 ≤ c) :
    (count + c - 1) / c = (count - 1) / c + 1 := by
  rw [show count + c - 1 = (count - 1) + c by omega, Nat.add_div_right _ (by omega)]

lemma ceil_div_ge (count c : Nat) (hcount : 1 ≤ count) (hc : 1 ≤ c) :
    count ≤ ((count + c - 1) / c) * c := by
  rw [ceil_div_eq_succ count c hcount hc, Nat.succ_mul]
  have hdm := Nat.div_add_mod (count - 1) c
  have hmod : (count - 1) % c < c := Nat.mod_lt _ (by omega)
  rw [Nat.mul_comm c ((count - 1) / c)] at hdm
  omega

lemma ceil_div_tight (count c : Nat) (hcount : 1 ≤ count) (hc : 1 ≤ c) :
    c * ((count + c - 1) / c - 1) < count := by
  rw [ceil_div_eq_succ count c hcount hc, Nat.add_sub_cancel]
  have hdm := Nat.div_add_mod (count - 1) c
  omega

lemma ceilSqrt_ge (n : Nat) : n ≤ ceilSqrt n * ceilSqrt n := by
  unfold ceilSqrt
  split
  · omega
  · have h2 : n < (Nat.sqrt n + 1) * (Nat.sqrt n + 1) := by
      simpa [Nat.succ_eq_add_one] using Nat.lt_succ_sqrt n
    omega

lemma ceilSqrt_tight (n : Nat) (hn : 1 ≤ n) :
    (ceilSqrt n - 1) * (ceilSqrt n - 1) < n := by
  unfold ceilSqrt
  split
  · rename_i heq
    have hs : 0 < Nat.sqrt n := Nat.sqrt_pos.mpr hn
    obtain ⟨m, hm⟩ : ∃ m, Nat.sqrt n = m + 1 := ⟨Nat.sqrt n - 1, by omega⟩
    rw [hm] at heq ⊢
    simp only [Nat.add_sub_cancel]
    nlinarith
  · rename_i hne
    have := Nat.sqrt_le n
    simp only [Nat.add_sub_cancel]
    omega

/-- C3: grid shape resolution by mode — `horizontal` gives `(frameCount, 1)`,
`vertical` gives `(1, frameCount)`; `grid` uses `config.columns` when
provided (and ≥ 1) else `ceil(sqrt frameCount)`, with
`rows = ceil(frameCount / cols)`.  The trailing conjuncts certify that
`(count + c - 1) / c` is the ceiling of `count / c` and that `ceilSqrt` is
the ceiling of the square root. -/
theorem grid_shape_resolution (count : Nat) (columns : Option Nat) (hc : 1 ≤ count) :
    resolveGrid LayoutMode.horizontal columns count = (count, 1)
    ∧ resolveGrid LayoutMode.vertical columns count = (1, count)
    ∧ (∀ c, 1 ≤ c →
        resolveGrid LayoutMode.grid (some c) count = (c, (count + c - 1) / c))
    ∧ resolveGrid LayoutMode.grid none count =
        (ceilSqrt count, (count + ceilSqrt count - 1) / ceilSqrt count)
    ∧ (∀ c, 1 ≤ c →
        count ≤ ((count + c - 1) / c) * c ∧ c * ((count + c - 1) / c - 1) < count)
    ∧ count ≤ ceilSqrt count * ceilSqrt count
    ∧ (ceilSqrt count - 1) * (ceilSqrt count - 1) < count := by
  refine ⟨rfl, rfl, ?_, rfl, ?_, ceilSqrt_ge count, ceilSqrt_tight count hc⟩
  · intro c hcc
    have h0 : ¬(c = 0) := by omega
    simp [resolveGrid, h0]
  · intro c hcc
    exact ⟨ceil_div_ge count c hc hcc, ceil_div_tight count c hc hcc⟩

lemma sqrt_three : Nat.sqrt 3 = 1 := by
  have h1 : 1 ≤ Nat.sqrt 3 := Nat.le_sqrt.mpr (by omega)
  have h2 : Nat.sqrt 3 < 2 := Nat.sqrt_lt.mpr (by omega)
  omega

lemma ceilSqrt_three : ceilSqrt 3 = 2 := by
  simp [ceilSqrt, sqrt_three]

/-- C3 witness: three frames in `grid` mode with no explicit columns resolve
to a 2×2 grid, and with explicit `columns = 2` likewise. -/
theorem grid_shape_resolution_witness :
    (1 ≤ 3) ∧ resolveGrid LayoutMode.grid none 3 = (2, 2)
    ∧ resolveGrid LayoutMode.grid (some 2) 3 = (2, 2) := by
  have h := grid_shape_resolution 3 none (by decide)
  refine ⟨by decide, h.2.2.2.1.trans ?_, (h.2.2.1 2 (by decide)).trans (by decide)⟩
  rw [ceilSqrt_three]

/-- C4: the placement at position `i` sits at column `i % cols` and row
`i / cols`, with cell origin `x = col * (cellWidth + padding)` and
`y = row * (cellHeight + padding)`. -/
theorem placement_cell_origin (frames : List SpriteFrame) (config : ProcessingConfig)
    (h : frames ≠ []) (r : SpriteSheetResult)
    (hr : generateSpritesheet frames config = Except.ok r) :
    ∀ i, i < frames.length →
      (r.frames.getD i default).x =
        (i % (resolveGrid config.layout config.columns frames.length).1) *
          (cellWidth frames + config.padding)
      ∧ (r.frames.getD i default).y =
        (i / (resolveGrid config.layout config.columns frames.length).1) *
          (cellHeight frames + config.padding) := by
  rw [generateSpritesheet_eq frames config h] at hr
  simp only [Except.ok.injEq] at hr
  subst hr
  intro i hi
  rw [getD_range_map _ _ i hi]
  exact ⟨rfl, rfl⟩

/-- C4 witness: in example 2, frame 3 occupies column 1, row 1, at
cell origin (12, 12). -/
theorem placement_cell_origin_witness :
    ex2Frames ≠ [] ∧ (3 : Nat) < ex2Frames.length
    ∧ (ex2Result.frames.getD 3 default).x = 12
    ∧ (ex2Result.frames.getD 3 default).y = 12 := by
  have h := placement_cell_origin ex2Frames ex2Config (by decide) ex2Result rfl 3 (by decide)
  exact ⟨by decide, by decide, h.1.trans (by decide), h.2.trans (by decide)⟩

/-- C5: the engine fails (with the `'No frames to process'` error, the spec's
`EmptyInputError`) exactly on empty input, producing no result; every
non-empty input yields a complete `SpriteSheetResult` and no such error. -/
theorem empty_input_rejected (config : ProcessingConfig) (frames : List SpriteFrame) :
    generateSpritesheet [] config = Except.error "No frames to process"
    ∧ (frames ≠ [] → ∃ r, generateSpritesheet frames config = Except.ok r) := by
  refine ⟨rfl, fun h => ⟨_, generateSpritesheet_eq frames config h⟩⟩

/-- C5 witness: the empty sequence errors under example 2's config, while
example 2's frames produce a result. -/
theorem empty_input_rejected_witness :
    generateSpritesheet [] ex2Config = Except.error "No frames to process"
    ∧ (∃ r, generateSpritesheet ex2Frames ex2Config = Except.ok r) :=
  ⟨(empty_input_rejected ex2Config ex2Frames).1,
   (empty_input_rejected ex2Config ex2Frames).2 (by decide)⟩

/-- Membership of a pixel `(px, py)` in a placement's cell rectangle of size
`cw × ch` anchored at the placement's origin. -/
def inCell (cw ch : Nat) (p : Placement) (px py : Nat) : Prop :=
  p.x ≤ px ∧ px < p.x + cw ∧ p.y ≤ py ∧ py < p.y + ch

instance (cw ch : Nat) (p : Placement) (px py : Nat) :
    Decidable (inCell cw ch p px py) := by
  unfold inCell
  infer_instance

lemma cells_disjoint_axis (a b w pad px : Nat) (hab : a < b)
    (h2 : px < a * (w + pad) + w)
    (h3 : b * (w + pad) ≤ px) : False := by
  have hstep : a * (w + pad) + w ≤ b * (w + pad) := by
    calc a * (w + pad) + w ≤ a * (w + pad) + (w + pad) := by omega
      _ = (a + 1) * (w + pad) := by ring
      _ ≤ b * (w + pad) := Nat.mul_le_mul_right _ (by omega)
  omega

lemma mod_div_inj (i j cols : Nat) (hm : i % cols = j % cols)
    (hd : i / cols = j / cols) : i = j := by
  calc i = cols * (i / cols) + i % cols := (Nat.div_add_mod i cols).symm
    _ = cols * (j / cols) + j % cols := by rw [hm, hd]
    _ = j := Nat.div_add_mod j cols

/-- C6: for any two distinct placements, their cell rectangles (of size
`cellWidth × cellHeight` at each placement's origin) are disjoint: no pixel
lies in both, for every layout mode and every padding. -/
theorem cells_disjoint (frames : List SpriteFrame) (config : ProcessingConfig)
    (h : frames ≠ []) (r : SpriteSheetResult)
    (hr : generateSpritesheet frames config = Except.ok r) :
    ∀ i j, i < frames.length → j < frames.length → i ≠ j →
      ∀ px py : Nat,
        ¬(inCell (cellWidth frames) (cellHeight frames) (r.frames.getD i default) px py
          ∧ inCell (cellWidth frames) (cellHeight frames) (r.frames.getD j default) px py) := by
  rw [generateSpritesheet_eq frames config h] at hr
  simp only [Except.ok.injEq] at hr
  subst hr
  intro i j hi hj hij px py hcon
  rw [getD_range_map _ _ i hi, getD_range_map _ _ j hj] at hcon
  obtain ⟨⟨hix, hix2, hiy, hiy2⟩, ⟨hjx, hjx2, hjy, hjy2⟩⟩ := hcon
  simp only [cellX, cellY] at hix hix2 hiy hiy2 hjx hjx2 hjy hjy2
  rcases Nat.lt_trichotomy
      (i % (resolveGrid config.layout config.columns frames.length).1)
      (j % (resolveGrid config.layout config.columns frames.length).1) with hlt | heq | hgt
  · exact cells_disjoint_axis _ _ _ _ px hlt hix2 hjx
  · rcases Nat.lt_trichotomy
        (i / (resolveGrid config.layout config.columns frames.length).1)
        (j / (resolveGrid config.layout config.columns frames.length).1) with hdl | hde | hdg
    · exact cells_disjoint_axis _ _ _ _ py hdl hiy2 hjy
    · exact hij (mod_div_inj i j _ heq hde)
    · exact cells_disjoint_axis _ _ _ _ py hdg hjy2 hiy
  · exact cells_disjoint_axis _ _ _ _ px hgt hjx2 hix

/-- C6 witness: in example 2, the cells of placements 0 and 1 share no pixel;
checked at the probe pixel (5, 5). -/
theorem cells_disjoint_witness :
    ex2Frames ≠ [] ∧ (0 : Nat) ≠ 1
    ∧ ¬(inCell (cellWidth ex2Frames) (cellHeight ex2Frames)
          (ex2Result.frames.getD 0 default) 5 5
        ∧ inCell (cellWidth ex2Frames) (cellHeight ex2Frames)
          (ex2Result.frames.getD 1 default) 5 5) :=
  ⟨by decide, by decide,
   cells_disjoint ex2Frames ex2Config (by decide) ex2Result rfl 0 1
     (by decide) (by decide) (by decide) 5 5⟩

/-- C7 counterexample: a single frame in `grid` mode with explicit
`columns = 5` resolves to a 5×1 grid, not 1×1, and the canvas of a single
10×10 frame comes out 50 pixels wide. -/
theorem single_frame_not_always_one_by_one :
    resolveGrid LayoutMode.grid (some 5) 1 ≠ (1, 1)
    ∧ generateSpritesheet [mkFrame 10 10 7]
        { layout := LayoutMode.grid, padding := 0, columns := some 5 }
      = Except.ok { width := 50, height := 10,
                    frames := [{ x := 0, y := 0, w := 10, h := 10, duration := 7 }] } :=
  ⟨by decide, rfl⟩

/-- C7 amended: a single frame yields a 1×1 grid in `horizontal` and
`vertical` modes and in `grid` mode when `columns` is absent (or the falsy
`0`); with `grid` and an explicit `columns = c ≥ 1` the shape is `c × 1`. -/
theorem single_frame_grid_shape (columns : Option Nat) (c : Nat) (hc : 1 ≤ c) :
    resolveGrid LayoutMode.horizontal columns 1 = (1, 1)
    ∧ resolveGrid LayoutMode.vertical columns 1 = (1, 1)
    ∧ resolveGrid LayoutMode.grid none 1 = (1, 1)
    ∧ resolveGrid LayoutMode.grid (some 0) 1 = (1, 1)
    ∧ resolveGrid LayoutMode.grid (some c) 1 = (c, 1) := by
  have hsq : ceilSqrt 1 = 1 := by simp [ceilSqrt, Nat.sqrt_one]
  have h0 : ¬(c = 0) := by omega
  refine ⟨rfl, rfl, by simp [resolveGrid, hsq], by simp [resolveGrid, hsq], ?_⟩
  simp only [resolveGrid, h0, if_false]
  rw [show 1 + c - 1 = c by omega, Nat.div_self (by omega)]

/-- C7 amended witness: with five explicit columns a single frame resolves
to a 5×1 grid, while without explicit columns it resolves to 1×1. -/
theorem single_frame_grid_shape_witness :
    (1 ≤ 5) ∧ resolveGrid LayoutMode.grid (some 5) 1 = (5, 1)
    ∧ resolveGrid LayoutMode.grid none 1 = (1, 1) :=
  ⟨by decide, (single_frame_grid_shape none 5 (by decide)).2.2.2.2,
   (single_frame_grid_shape none 5 (by decide)).2.2.1⟩

/-- C8: in `horizontal` and `vertical` modes the `columns` field has no
influence: two configs differing only in `columns` produce identical
results (width, height, and all placements). -/
theorem columns_ignored_nongrid (frames : List SpriteFrame) (padding : Nat)
    (c1 c2 : Option Nat) :
    generateSpritesheet frames
        { layout := LayoutMode.horizontal, padding := padding, columns := c1 }
      = generateSpritesheet frames
        { layout := LayoutMode.horizontal, padding := padding, columns := c2 }
    ∧ generateSpritesheet frames
        { layout := LayoutMode.vertical, padding := padding, columns := c1 }
      = generateSpritesheet frames
        { layout := LayoutMode.vertical, padding := padding, columns := c2 } :=
  ⟨rfl, rfl⟩

/-- C9: the adapter turns a decoded animation into one canonical frame per
decoded step, in decode order, with `id` assigned by position and width,
height, offsets, pixel bytes, and duration passed through unchanged. -/
theorem extractFrames_normalizes (frames : List DecodedFrame) :
    (extractFrames frames).length = frames.length
    ∧ ∀ i, i < frames.length →
        (extractFrames frames).getD i default =
          { id := i,
            imageData := (frames.getD i default).patch,
            dims := (frames.getD i default).dims,
            delay := (frames.getD i default).delay } := by
  have hlen : (extractFrames frames).length = frames.length := by
    simp [extractFrames]
  refine ⟨hlen, fun i hi => ?_⟩
  rw [List.getD_eq_getElem _ _ (by omega), List.getD_eq_getElem _ _ hi]
  simp [extractFrames]

/-- C9 witness: a two-step decoded animation maps to frames with ids 0 and 1
and all fields passed through. -/
theorem extractFrames_normalizes_witness :
    (extractFrames [⟨[1, 2], ⟨1, 1, 3, 4⟩, 50⟩, ⟨[5], ⟨2, 3, 0, 0⟩, 60⟩]).length = 2
    ∧ (extractFrames [⟨[1, 2], ⟨1, 1, 3, 4⟩, 50⟩, ⟨[5], ⟨2, 3, 0, 0⟩, 60⟩]).getD 1 default
        = { id := 1, imageData := [5], dims := ⟨2, 3, 0, 0⟩, delay := 60 } := by
  have h := extractFrames_normalizes [⟨[1, 2], ⟨1, 1, 3, 4⟩, 50⟩, ⟨[5], ⟨2, 3, 0, 0⟩, 60⟩]
  exact ⟨h.1, (h.2 1 (by decide)).trans (by decide)⟩

/-- C10: every placement rectangle lies inside the canvas:
`x + w ≤ width` and `y + h ≤ height` for all placements. -/
theorem placements_within_canvas (frames : List SpriteFrame) (config : ProcessingConfig)
    (h : frames ≠ []) (r : SpriteSheetResult)
    (hr : generateSpritesheet frames config = Except.ok r) :
    ∀ i, i < frames.length →
      (r.frames.getD i default).x + (r.frames.getD i default).w ≤ r.width
      ∧ (r.frames.getD i default).y + (r.frames.getD i default).h ≤ r.height := by
  rw [generateSpritesheet_eq frames config h] at hr
  simp only [Except.ok.injEq] at hr
  subst hr
  intro i hi
  rw [getD_range_map _ _ i hi]
  have hcount : 1 ≤ frames.length := by
    cases frames with
    | nil => exact absurd rfl h
    | cons a l => simp
  have hcols : 1 ≤ (resolveGrid config.layout config.columns frames.length).1 :=
    resolveGrid_cols_pos _ _ _ hcount
  have hmem : frames.getD i default ∈ frames := by
    rw [List.getD_eq_getElem _ _ hi]
    exact List.getElem_mem hi
  have hw : (frames.getD i default).dims.width ≤ cellWidth frames :=
    width_le_cellWidth _ _ hmem
  have hh : (frames.getD i default).dims.height ≤ cellHeight frames :=
    height_le_cellHeight _ _ hmem
  constructor
  · show (i % (resolveGrid config.layout config.columns frames.length).1) *
        (cellWidth frames + config.padding) +
        (frames.getD i default).dims.width ≤
      (resolveGrid config.layout config.columns frames.length).1 * cellWidth frames +
        ((resolveGrid config.layout config.columns frames.length).1 - 1) * config.padding
    have hcol : i % (resolveGrid config.layout config.columns frames.length).1 <
        (resolveGrid config.layout config.columns frames.length).1 :=
      Nat.mod_lt _ (by omega)
    calc (i % (resolveGrid config.layout config.columns frames.length).1) *
          (cellWidth frames + config.padding) + (frames.getD i default).dims.width
        ≤ (i % (resolveGrid config.layout config.columns frames.length).1) *
          (cellWidth frames + config.padding) + cellWidth frames := by omega
      _ ≤ (resolveGrid config.layout config.columns frames.length).1 * cellWidth frames +
          ((resolveGrid config.layout config.columns frames.length).1 - 1) *
            config.padding := cell_fits _ _ _ _ hcol
  · show (i / (resolveGrid config.layout config.columns frames.length).1) *
        (cellHeight frames + config.padding) +
        (frames.getD i default).dims.height ≤
      (resolveGrid config.layout config.columns frames.length).2 * cellHeight frames +
        ((resolveGrid config.layout config.columns frames.length).2 - 1) * config.padding
    have hrow : i / (resolveGrid config.layout config.columns frames.length).1 <
        (resolveGrid config.layout config.columns frames.length).2 :=
      resolveGrid_row_lt _ _ _ i hcount hi
    calc (i / (resolveGrid config.layout config.columns frames.length).1) *
          (cellHeight frames + config.padding) + (frames.getD i default).dims.height
        ≤ (i / (resolveGrid config.layout config.columns frames.length).1) *
          (cellHeight frames + config.padding) + cellHeight frames := by omega
      _ ≤ (resolveGrid config.layout config.columns frames.length).2 * cellHeight frames +
          ((resolveGrid config.layout config.columns frames.length).2 - 1) *
            config.padding := cell_fits _ _ _ _ hrow

/-- C10 witness: in example 2, placement 3 (at (12,12), size 10×10) fits in
the 22×22 canvas. -/
theorem placements_within_canvas_witness :
    ex2Frames ≠ [] ∧ (3 : Nat) < ex2Frames.length
    ∧ (ex2Result.frames.getD 3 default).x + (ex2Result.frames.getD 3 default).w
        ≤ ex2Result.width
    ∧ (ex2Result.frames.getD 3 default).y + (ex2Result.frames.getD 3 default).h
        ≤ ex2Result.height := by
  have h := placements_within_canvas ex2Frames ex2Config (by decide) ex2Result rfl 3 (by decide)
  exact ⟨by decide, by decide, h.1, h.2⟩
